import Mathlib

/-!
Shallow embedding of `src/model.py` (vit-finetune): the `ClassificationModel`
Lightning module.  External library behaviour (HuggingFace model loading, peft
LoRA wrapping, torch tensors, wandb logging, torchmetrics) is abstracted: the
embedding keeps the data flow and control flow of the module's own code.
Python strings are modelled by `String`, with Python's `in`, `startswith` and
`str.replace` re-implemented over `List Char`.
-/

namespace VitFinetune

/-- Python `pat in s` (substring containment) over char lists. -/
def hasSubstr (pat : List Char) : List Char → Bool
  | [] => pat.isEmpty
  | c :: cs => pat.isPrefixOf (c :: cs) || hasSubstr pat cs

/-- Python `pat in s` on strings. -/
def pyIn (pat s : String) : Bool := hasSubstr pat.data s.data

/-- Python `s.startswith(pre)`. -/
def pyStartsWith (s pre : String) : Bool := pre.data.isPrefixOf s.data

/-- Python `str.replace` scanning: replace every non-overlapping occurrence of
`pat` (left to right, never rescanning replaced text) by `rep`.  Every step
consumes at least one character of the scanned list, so the fuel only needs to
cover its length. -/
def replaceAllFuel (pat rep : List Char) : Nat → List Char → List Char
  | 0, l => l
  | _ + 1, [] => []
  | fuel + 1, c :: cs =>
    if pat.isPrefixOf (c :: cs) && !pat.isEmpty then
      rep ++ replaceAllFuel pat rep fuel (cs.drop (pat.length - 1))
    else
      c :: replaceAllFuel pat rep fuel cs

/-- Python `str.replace` on char lists. -/
def replaceAll (pat rep l : List Char) : List Char :=
  replaceAllFuel pat rep l.length l

/-- Python `s.replace(pat, rep)` on strings. -/
def pyReplace (s pat rep : String) : String :=
  String.mk (replaceAll pat.data rep.data s.data)

/-- Python exceptions raised by the module's own code. -/
inductive PyError where
  | valueError (msg : String)
  | assertionError (msg : String)
deriving DecidableEq

/-- MODEL_DICT from `src/model.py`: model name to pretrained checkpoint path. -/
def MODEL_DICT : List (String × String) :=
  [("vit-b16-224-in21k", "google/vit-base-patch16-224-in21k"),
   ("vit-b32-224-in21k", "google/vit-base-patch32-224-in21k"),
   ("vit-l32-224-in21k", "google/vit-large-patch32-224-in21k"),
   ("vit-l15-224-in21k", "google/vit-large-patch16-224-in21k"),
   ("vit-h14-224-in21k", "google/vit-huge-patch14-224-in21k"),
   ("vit-b16-224", "google/vit-base-patch16-224"),
   ("vit-l16-224", "google/vit-large-patch16-224"),
   ("vit-b16-384", "google/vit-base-patch16-384"),
   ("vit-b32-384", "google/vit-base-patch32-384"),
   ("vit-l16-384", "google/vit-large-patch16-384"),
   ("vit-l32-384", "google/vit-large-patch32-384"),
   ("vit-b16-224-dino", "facebook/dino-vitb16"),
   ("vit-b8-224-dino", "facebook/dino-vitb8"),
   ("vit-s16-224-dino", "facebook/dino-vits16"),
   ("vit-s8-224-dino", "facebook/dino-vits8"),
   ("beit-b16-224-in21k", "microsoft/beit-base-patch16-224-pt22k-ft22k"),
   ("beit-l16-224-in21k", "microsoft/beit-large-patch16-224-pt22k-ft22k")]

/-- Tail of the model-name lookup error message: the fixed text followed by
the Python repr of `list(MODEL_DICT.keys())`. -/
def MODEL_ERR_SUFFIX : String :=
  " is not an available model. Should be one of [" ++
    String.intercalate ", "
      (MODEL_DICT.map (fun p => "'" ++ p.1 ++ "'")) ++ "]"

/-- Error message of the model-name lookup (`__init__`, lines 137-140). -/
def modelErrMsg (model_name : String) : String :=
  model_name ++ MODEL_ERR_SUFFIX

/-- The `MODEL_DICT[self.model_name]` lookup: any lookup failure is caught by
the bare `except` and turned into a `ValueError` (lines 135-140). -/
def lookupModel (model_name : String) : Except PyError String :=
  match MODEL_DICT.find? (fun p => p.1 == model_name) with
  | some p => Except.ok p.2
  | none => Except.error (PyError.valueError (modelErrMsg model_name))

/-- How the network's weights got initialized (lines 142-169). -/
inductive LoadKind where
  | fromScratch
  | pretrained (quantized : Bool)
deriving DecidableEq

/-- Network initialization (lines 142-169): random weights when
`from_scratch`, otherwise pretrained weights, 4-bit quantized when `use_4bit`
after the assert that forbids combining 4-bit with full fine-tuning. -/
def initNet (from_scratch use_4bit : Bool) (training_mode : String) :
    Except PyError LoadKind :=
  if from_scratch then
    Except.ok LoadKind.fromScratch
  else if use_4bit then
    if training_mode = "full" then
      Except.error (PyError.assertionError
        "4-bit quantization can not work with full fine-tuning mode")
    else
      Except.ok (LoadKind.pretrained true)
  else
    Except.ok (LoadKind.pretrained false)

/-- Checkpoint key filtering loop (lines 179-183): keep keys starting with
"net", strip every occurrence of "net." from them. -/
def buildNewStateDict : List (String × Int) → List (String × Int)
  | [] => []
  | (k, v) :: rest =>
    if pyStartsWith k "net" then
      (pyReplace k "net." "", v) :: buildNewStateDict rest
    else
      buildNewStateDict rest

/-- A named parameter of the wrapped network with its `requires_grad` flag. -/
structure Param where
  name : String
  requires_grad : Bool
deriving DecidableEq

/-- The network after the fine-tuning-mode preparation: untouched or
linear-frozen parameters, or wrapped in a peft LoRA model. -/
inductive NetState where
  | plain (params : List Param)
  | lora (params : List Param)
deriving DecidableEq

/-- Error message of the fine-tuning-mode dispatch (lines 206-209). -/
def modeErrMsg (training_mode : String) : String :=
  training_mode ++
    " is not an available fine-tuning mode. Should be one of ['full', 'linear', 'lora']"

/-- Fine-tuning-mode preparation (lines 187-209): `linear` freezes every
parameter whose name does not contain "classifier", `lora` wraps the net,
`full` does nothing, anything else raises `ValueError`. -/
def applyTrainingMode (training_mode : String) (params : List Param) :
    Except PyError NetState :=
  if training_mode = "linear" then
    Except.ok (NetState.plain (params.map (fun p =>
      if pyIn "classifier" p.name then p else { p with requires_grad := false })))
  else if training_mode = "lora" then
    Except.ok (NetState.lora params)
  else if training_mode = "full" then
    Except.ok (NetState.plain params)
  else
    Except.error (PyError.valueError (modeErrMsg training_mode))

/-- Observable outcome of `ClassificationModel.__init__`. -/
structure InitResult where
  model_path : String
  load : LoadKind
  ckpt_load : Option (List (String × Int) × Bool)
  net : NetState
deriving DecidableEq

/-- The constructor`s sequence of its own steps (lines 134-209): model-name
lookup, network initialization, optional checkpoint-weight loading (the
filtered dict is loaded with `strict=True`), fine-tuning-mode preparation.
`weights` stands for the checkpoint's state_dict when a path was supplied;
`params0` are the named parameters of the freshly initialized network. -/
def initModel (model_name training_mode : String) (from_scratch use_4bit : Bool)
    (weights : Option (List (String × Int))) (params0 : List Param) :
    Except PyError InitResult :=
  match lookupModel model_name with
  | Except.error e => Except.error e
  | Except.ok path =>
    match initNet from_scratch use_4bit training_mode with
    | Except.error e => Except.error e
    | Except.ok load =>
      let ckpt := weights.map (fun w => (buildNewStateDict w, true))
      match applyTrainingMode training_mode params0 with
      | Except.error e => Except.error e
      | Except.ok net =>
        Except.ok { model_path := path, load := load, ckpt_load := ckpt, net := net }

/-- One row of a torchmetrics `StatScores(average=None)` result: per-class
true positives, false positives, true negatives, false negatives, support. -/
structure StatRow where
  tp : Nat
  fp : Nat
  tn : Nat
  fn : Nat
  sup : Nat
deriving DecidableEq

/-- Element-wise sum of two stat rows. -/
def addRow (a b : StatRow) : StatRow :=
  ⟨a.tp + b.tp, a.fp + b.fp, a.tn + b.tn, a.fn + b.fn, a.sup + b.sup⟩

/-- Element-wise sum of two per-class stat tensors of shape (n_classes, 5). -/
def addStats (a b : List StatRow) : List StatRow := List.zipWith addRow a b

/-- The `torch.sum(torch.stack(outputs, dim=-1), dim=-1)` aggregation of
`on_test_epoch_end` (lines 349-351): element-wise sum of the accumulated
per-batch stat tensors. -/
def combineStats : List (List StatRow) → List StatRow
  | [] => []
  | s :: rest => rest.foldl addStats s

/-- The csv file written by `on_test_epoch_end`: its path and its (acc, n)
rows in class order. -/
structure CsvFile where
  path : String
  rows : List (ℚ × Nat)
deriving DecidableEq

/-- `on_test_epoch_end` (lines 346-362): aggregate the per-batch stats, take
per class the accuracy tp / sup with the support n, write the rows to
"per-class-acc-test.csv". -/
def on_test_epoch_end (test_metric_outputs : List (List StatRow)) : CsvFile :=
  { path := "per-class-acc-test.csv"
    rows := (combineStats test_metric_outputs).map
      (fun r => ((r.tp : ℚ) / (r.sup : ℚ), r.sup)) }

/-- One-hot target vector: `F.one_hot(y, num_classes=n).float()` (line 301). -/
def oneHot (n_classes : Nat) (c : Nat) : List ℚ :=
  (List.range n_classes).map (fun i => if i = c then 1 else 0)

/-- Mutable per-module state that `shared_step` reads and writes: the wandb
step counters (lines 265-266, 294-295), the stored gact slices (lines
312-314) and the accumulated test stats (lines 258, 331-332). -/
structure StepState where
  train_step : Nat
  val_step : Nat
  partial_x : Option (List Int)
  partial_y : Option (List (List ℚ))
  test_metric_outputs : List (List StatRow)
deriving DecidableEq

/-- Module state right after the constructor: both counters zero, no stored
gact slice, no accumulated test stats. -/
def initStepState : StepState :=
  { train_step := 0, val_step := 0, partial_x := none, partial_y := none
    test_metric_outputs := [] }

/-- The external pieces `shared_step` delegates to: the Mixup/Cutmix
augmentation `self.mixup` (src/mixup.py) and the torchmetrics stat
computation on the network's predictions. Inputs are abstract tensors
(`List Int` batches), soft targets are per-sample rational vectors. -/
structure NetEnv where
  open_gact : Bool
  n_classes : Nat
  mixupFn : List Int → List Nat → List Int × List (List ℚ)
  statsFn : List Int → List (List ℚ) → List StatRow

/-- Observable effects of one `shared_step` call. -/
structure StepResult where
  state : StepState
  used_x : List Int
  used_y : List (List ℚ)
  iterate_invoked : Bool

/-- `shared_step` (lines 292-334): bump the step counters, mixup the batch in
train mode or one-hot the targets otherwise, replay the gact controller on
every train step but the first, feed the batch to the network and the loss,
store the first 8 samples for gact, and in test mode append the batch's
per-class stats. -/
def shared_step (env : NetEnv) (s : StepState) (x : List Int) (y : List Nat)
    (mode : String) : StepResult :=
  let train_step := s.train_step + (if mode = "train" then 1 else 0)
  let val_step := s.val_step + (if mode = "val" then 1 else 0)
  let xy := if mode = "train" then env.mixupFn x y else (x, y.map (oneHot env.n_classes))
  let iterate_invoked := env.open_gact && decide (mode = "train") && decide (train_step ≠ 1)
  let partial_x := if env.open_gact then some (xy.1.take 8) else s.partial_x
  let partial_y := if env.open_gact then some (xy.2.take 8) else s.partial_y
  let test_metric_outputs :=
    if mode = "test" then s.test_metric_outputs ++ [env.statsFn xy.1 xy.2]
    else s.test_metric_outputs
  { state := { train_step := train_step, val_step := val_step
               partial_x := partial_x, partial_y := partial_y
               test_metric_outputs := test_metric_outputs }
    used_x := xy.1
    used_y := xy.2
    iterate_invoked := iterate_invoked }

/-- `training_step` (lines 336-338) delegates to `shared_step` with "train". -/
def training_step (env : NetEnv) (s : StepState) (x : List Int) (y : List Nat) :
    StepResult := shared_step env s x y "train"

/-- `validation_step` (lines 340-341) delegates to `shared_step` with "val". -/
def validation_step (env : NetEnv) (s : StepState) (x : List Int) (y : List Nat) :
    StepResult := shared_step env s x y "val"

/-- `test_step` (lines 343-344) delegates to `shared_step` with "test". -/
def test_step (env : NetEnv) (s : StepState) (x : List Int) (y : List Nat) :
    StepResult := shared_step env s x y "test"

/-- A batch together with the mode the driver runs it under. -/
structure Step where
  mode : String
  x : List Int
  y : List Nat

/-- State after running a sequence of `shared_step` calls. -/
def stateAfter (env : NetEnv) (s : StepState) (l : List Step) : StepState :=
  l.foldl (fun st b => (shared_step env st b.x b.y b.mode).state) s

/-- The optimizer picked by `configure_optimizers` (lines 366-397). -/
inductive OptChoice where
  | adam
  | adamw
  | sgd
  | adamw4bit
deriving DecidableEq

/-- The learning-rate scheduler picked by `configure_optimizers` (lines
400-411): cosine schedule with warmup, or `LambdaLR` with the constant
factor returned by `lambda _: 1`. -/
inductive SchedChoice where
  | cosineWarmup
  | lambdaConst (factor : Nat)
deriving DecidableEq

/-- The dict returned by `configure_optimizers` (lines 413-419). -/
structure OptimizersResult where
  optimizer : OptChoice
  scheduler : SchedChoice
  interval : String
deriving DecidableEq

/-- Tail of the optimizer error message (line 396): it names only three of
the four accepted optimizers. -/
def OPT_ERR_SUFFIX : String :=
  " is not an available optimizer. Should be one of ['adam', 'adamw', 'sgd']"

/-- Tail of the scheduler error message (line 410), which also says
"optimizer" in the source. -/
def SCHED_ERR_SUFFIX : String :=
  " is not an available optimizer. Should be one of ['cosine', 'none']"

/-- Optimizer selection if-chain (lines 366-397). -/
def selectOptimizer (optimizer : String) : Except PyError OptChoice :=
  if optimizer = "adam" then Except.ok OptChoice.adam
  else if optimizer = "adamw" then Except.ok OptChoice.adamw
  else if optimizer = "sgd" then Except.ok OptChoice.sgd
  else if optimizer = "adamw4bit" then Except.ok OptChoice.adamw4bit
  else Except.error (PyError.valueError (optimizer ++ OPT_ERR_SUFFIX))

/-- Scheduler selection if-chain (lines 400-411). -/
def selectScheduler (scheduler : String) : Except PyError SchedChoice :=
  if scheduler = "cosine" then Except.ok SchedChoice.cosineWarmup
  else if scheduler = "none" then Except.ok (SchedChoice.lambdaConst 1)
  else Except.error (PyError.valueError (scheduler ++ SCHED_ERR_SUFFIX))

/-- `configure_optimizers` (lines 364-419): pick the optimizer, pick the
scheduler, return them paired with the "step" stepping interval. -/
def configure_optimizers (optimizer scheduler : String) :
    Except PyError OptimizersResult :=
  match selectOptimizer optimizer with
  | Except.error e => Except.error e
  | Except.ok opt =>
    match selectScheduler scheduler with
    | Except.error e => Except.error e
    | Except.ok sch =>
      Except.ok { optimizer := opt, scheduler := sch, interval := "step" }

/-- Concrete named parameters used to exercise the constructor theorems:
backbone parameters and the classifier head, all trainable as loaded. -/
def demoParams : List Param :=
  [⟨"vit.embeddings.cls_token", true⟩,
   ⟨"vit.encoder.layer.0.attention.attention.query.weight", true⟩,
   ⟨"classifier.weight", true⟩,
   ⟨"classifier.bias", true⟩]

/-- Constructor outcome for full fine-tuning of vit-b16-224-in21k over
`demoParams`, used as a concrete witness input. -/
def rFullDemo : InitResult :=
  { model_path := "google/vit-base-patch16-224-in21k"
    load := LoadKind.pretrained false
    ckpt_load := none
    net := NetState.plain demoParams }

/-- Concrete external environment used by the step witnesses: gact open, two
classes, a mixup that shifts the inputs and mixes the targets, a fixed stat
tensor. -/
def demoEnv : NetEnv :=
  { open_gact := true
    n_classes := 2
    mixupFn := fun x _ => (x.map (fun v => v + 1), [[(1 : ℚ) / 2, 1 / 2]])
    statsFn := fun _ _ => [⟨1, 0, 0, 0, 1⟩, ⟨0, 0, 1, 0, 0⟩] }

/-- Concrete accumulated per-batch stat tensors (two batches, two classes). -/
def demoStats : List (List StatRow) :=
  [[⟨2, 0, 0, 0, 3⟩, ⟨1, 1, 1, 1, 2⟩],
   [⟨1, 0, 0, 1, 1⟩, ⟨0, 0, 2, 0, 2⟩]]

/-- C1: in "linear" training mode every parameter whose name does not contain
"classifier" ends up with `requires_grad = false`, while the parameters whose
name contains "classifier" keep their `requires_grad = true`. -/
theorem claim_C1 (params : List Param)
    (hall : ∀ p ∈ params, p.requires_grad = true) :
    ∃ out, applyTrainingMode "linear" params = Except.ok (NetState.plain out) ∧
      out.map Param.name = params.map Param.name ∧
      ∀ p ∈ out, p.requires_grad = pyIn "classifier" p.name := by
  refine ⟨params.map (fun p =>
      if pyIn "classifier" p.name then p else { p with requires_grad := false }),
    ?_, ?_, ?_⟩
  · simp [applyTrainingMode]
  · simp only [List.map_map]
    apply List.map_congr_left
    intro p hp
    by_cases h : pyIn "classifier" p.name <;> simp [h]
  · intro q hq
    simp only [List.mem_map] at hq
    obtain ⟨p, hp, rfl⟩ := hq
    by_cases h : pyIn "classifier" p.name
    · simp [h, hall p hp]
    · simp [h]

/-- Witness for C1 at a concrete parameter list. -/
theorem claim_C1_witness :
    ∃ out, applyTrainingMode "linear" demoParams = Except.ok (NetState.plain out) ∧
      out.map Param.name = demoParams.map Param.name ∧
      ∀ p ∈ out, p.requires_grad = pyIn "classifier" p.name :=
  claim_C1 demoParams (by decide)

/-- C2: a `training_mode` other than "full", "linear", "lora" makes the
constructor raise the `ValueError` naming the three fine-tuning modes; each of
the three modes constructs without error (except the 4-bit/full assert
combination), and "full" leaves every parameter's `requires_grad` unchanged. -/
theorem claim_C2 :
    (∀ mode, mode ∉ (["full", "linear", "lora"] : List String) →
      ∀ name path fs u4 w p, lookupModel name = Except.ok path →
        initModel name mode fs u4 w p =
          Except.error (PyError.valueError (modeErrMsg mode)))
  ∧ (∀ mode ∈ (["full", "linear", "lora"] : List String),
      ∀ name path fs u4 w p, lookupModel name = Except.ok path →
        ¬ (mode = "full" ∧ fs = false ∧ u4 = true) →
        ∃ r, initModel name mode fs u4 w p = Except.ok r)
  ∧ (∀ name fs u4 w p r, initModel name "full" fs u4 w p = Except.ok r →
      r.net = NetState.plain p) := by
  refine ⟨?_, ?_, ?_⟩
  · intro mode hmode name path fs u4 w p hlook
    simp only [List.mem_cons, List.not_mem_nil, or_false, not_or] at hmode
    obtain ⟨h1, h2, h3⟩ := hmode
    unfold initModel
    rw [hlook]
    cases fs <;> cases u4 <;>
      simp [initNet, applyTrainingMode, h1, h2, h3]
  · intro mode hmode name path fs u4 w p hlook hexc
    simp only [List.mem_cons, List.not_mem_nil, or_false] at hmode
    unfold initModel
    rw [hlook]
    rcases hmode with rfl | rfl | rfl <;> cases fs <;> cases u4 <;>
      simp_all [initNet, applyTrainingMode]
  · intro name fs u4 w p r h
    unfold initModel at h
    rcases hl : lookupModel name with e | path <;> rw [hl] at h
    · simp at h
    · cases fs <;> cases u4 <;>
        simp_all [initNet, applyTrainingMode] <;>
        exact congrArg InitResult.net h.symm

/-- Witness for C2: an unknown mode errors, "lora" with 4-bit constructs, and
the concrete full-mode outcome keeps `demoParams` untouched. -/
theorem claim_C2_witness :
    initModel "vit-b16-224-in21k" "adapter" false false none demoParams =
      Except.error (PyError.valueError (modeErrMsg "adapter"))
  ∧ (∃ r, initModel "vit-b16-224-in21k" "lora" false true none demoParams =
      Except.ok r)
  ∧ rFullDemo.net = NetState.plain demoParams :=
  ⟨claim_C2.1 "adapter" (by decide) "vit-b16-224-in21k"
      "google/vit-base-patch16-224-in21k" false false none demoParams (by rfl),
   claim_C2.2.1 "lora" (by decide) "vit-b16-224-in21k"
      "google/vit-base-patch16-224-in21k" false true none demoParams (by rfl)
      (by simp),
   claim_C2.2.2 "vit-b16-224-in21k" false false none demoParams rFullDemo
      (by rfl)⟩

set_option maxRecDepth 20000 in
/-- C7: every key of MODEL_DICT resolves to its checkpoint path without error;
any other model name makes the lookup raise the `ValueError` whose message
lists all the available model names. -/
theorem claim_C7 :
    (∀ kv ∈ MODEL_DICT, lookupModel kv.1 = Except.ok kv.2)
  ∧ (∀ name, name ∉ MODEL_DICT.map Prod.fst →
      lookupModel name = Except.error (PyError.valueError (modelErrMsg name)))
  ∧ (∀ kv ∈ MODEL_DICT, pyIn kv.1 MODEL_ERR_SUFFIX = true) := by
  refine ⟨?_, ?_, by decide⟩
  · intro kv hkv
    fin_cases hkv <;> rfl
  intro name hname
  have hfind : MODEL_DICT.find? (fun p => p.1 == name) = none := by
    rw [List.find?_eq_none]
    intro x hx
    simp only [beq_iff_eq]
    intro heq
    exact hname (heq ▸ List.mem_map_of_mem Prod.fst hx)
  simp [lookupModel, hfind]

/-- Witness for C7 at a name outside MODEL_DICT. -/
theorem claim_C7_witness :
    lookupModel "resnet-50" =
      Except.error (PyError.valueError (modelErrMsg "resnet-50")) :=
  claim_C7.2.1 "resnet-50" (by decide)

/-- Helper: the fine-tuning-mode dispatch only ever raises the mode
`ValueError`, never an assertion error. -/
theorem applyTrainingMode_error (mode : String) (p : List Param) (e : PyError)
    (h : applyTrainingMode mode p = Except.error e) :
    e = PyError.valueError (modeErrMsg mode) := by
  unfold applyTrainingMode at h
  split_ifs at h <;> simp_all

/-- C4: with pretrained 4-bit loading, full fine-tuning is rejected by the
assert (so construction fails before any weights are loaded); "linear" and
"lora" load the pretrained weights 4-bit quantized; with `from_scratch` the
`use_4bit` flag has no effect and no assertion fires; hence a successful
construction never pairs quantized weights with full fine-tuning. -/
theorem claim_C4 (name path : String) (w : Option (List (String × Int)))
    (p : List Param) (hlook : lookupModel name = Except.ok path) :
    (initModel name "full" false true w p =
      Except.error (PyError.assertionError
        "4-bit quantization can not work with full fine-tuning mode"))
  ∧ (∀ mode ∈ (["linear", "lora"] : List String),
      ∃ r, initModel name mode false true w p = Except.ok r ∧
        r.load = LoadKind.pretrained true)
  ∧ (∀ mode u4a u4b,
      initModel name mode true u4a w p = initModel name mode true u4b w p)
  ∧ (∀ mode u4 e,
      initModel name mode true u4 w p ≠ Except.error (PyError.assertionError e))
  ∧ (∀ mode fs u4 r, initModel name mode fs u4 w p = Except.ok r →
      r.load = LoadKind.pretrained true → mode ≠ "full") := by
  refine ⟨?_, ?_, ?_, ?_, ?_⟩
  · unfold initModel
    rw [hlook]
    simp [initNet]
  · intro mode hmode
    simp only [List.mem_cons, List.not_mem_nil, or_false] at hmode
    unfold initModel
    rw [hlook]
    rcases hmode with rfl | rfl <;>
      simp [initNet, applyTrainingMode]
  · intro mode u4a u4b
    unfold initModel
    rw [hlook]
    cases u4a <;> cases u4b <;> simp [initNet]
  · intro mode u4 e
    unfold initModel
    rw [hlook]
    simp only [initNet, if_pos, if_true]
    rcases happ : applyTrainingMode mode p with e' | net <;> simp
    intro heq
    have := applyTrainingMode_error mode p e' happ
    simp_all
  · intro mode fs u4 r h hq heq
    subst heq
    unfold initModel at h
    rw [hlook] at h
    cases fs <;> cases u4 <;> simp_all [initNet, applyTrainingMode] <;>
      rw [← h] at hq <;> simp at hq

/-- Witness for C4: assertion error in the full/4-bit case, quantized load in
the linear/4-bit case, at concrete arguments. -/
theorem claim_C4_witness :
    initModel "vit-b16-224-in21k" "full" false true none demoParams =
      Except.error (PyError.assertionError
        "4-bit quantization can not work with full fine-tuning mode")
  ∧ (∃ r, initModel "vit-b16-224-in21k" "linear" false true none demoParams =
      Except.ok r ∧ r.load = LoadKind.pretrained true) :=
  ⟨(claim_C4 "vit-b16-224-in21k" "google/vit-base-patch16-224-in21k" none
      demoParams (by rfl)).1,
   (claim_C4 "vit-b16-224-in21k" "google/vit-base-patch16-224-in21k" none
      demoParams (by rfl)).2.1 "linear" (by simp)⟩

/-- C9: the checkpoint-filtering loop keeps exactly the entries whose key
starts with "net", removes every occurrence of "net." from each kept key (a
non-leading "net." is removed too), drops the other entries, and the filtered
dict is loaded with strict=True. -/
theorem claim_C9 (ckpt : List (String × Int)) (name path : String)
    (p : List Param) (hlook : lookupModel name = Except.ok path) :
    buildNewStateDict ckpt =
      (ckpt.filter (fun kv => pyStartsWith kv.1 "net")).map
        (fun kv => (pyReplace kv.1 "net." "", kv.2))
  ∧ buildNewStateDict [("net.vit.a.net.b", 3), ("head.c", 7)] = [("vit.a.b", 3)]
  ∧ (∀ r, initModel name "full" false false (some ckpt) p = Except.ok r →
      r.ckpt_load = some (buildNewStateDict ckpt, true)) := by
  refine ⟨?_, by decide, ?_⟩
  · induction ckpt with
    | nil => rfl
    | cons kv rest ih =>
      obtain ⟨k, v⟩ := kv
      by_cases h : pyStartsWith k "net" <;>
        simp [buildNewStateDict, List.filter_cons, h, ih]
  · intro r h
    unfold initModel at h
    rw [hlook] at h
    simp only [initNet, applyTrainingMode] at h
    simp_all
    exact congrArg InitResult.ckpt_load h.symm

/-- Witness for C9: the concrete two-entry checkpoint, via the theorem at a
valid model name. -/
theorem claim_C9_witness :
    buildNewStateDict [("net.vit.a.net.b", 3), ("head.c", 7)] = [("vit.a.b", 3)] :=
  (claim_C9 [] "vit-b16-224-in21k" "google/vit-base-patch16-224-in21k"
      demoParams (by rfl)).2.1

/-- C6: `configure_optimizers` raises `ValueError` exactly when the optimizer
name is outside adam/adamw/sgd/adamw4bit or the scheduler name is outside
cosine/none; the optimizer error message lists only adam, adamw, sgd although
adamw4bit is accepted; a success pairs the selected optimizer with a
scheduler stepped at the "step" interval, a constant-factor LambdaLR when the
scheduler is "none". -/
theorem claim_C6 (optimizer scheduler : String) :
    ((∃ e, configure_optimizers optimizer scheduler =
        Except.error (PyError.valueError e)) ↔
      (optimizer ∉ (["adam", "adamw", "sgd", "adamw4bit"] : List String) ∨
       scheduler ∉ (["cosine", "none"] : List String)))
  ∧ (∀ r, configure_optimizers optimizer scheduler = Except.ok r →
      r.interval = "step"
      ∧ (scheduler = "none" → r.scheduler = SchedChoice.lambdaConst 1)
      ∧ (scheduler = "cosine" → r.scheduler = SchedChoice.cosineWarmup)
      ∧ (optimizer = "adam" → r.optimizer = OptChoice.adam)
      ∧ (optimizer = "adamw" → r.optimizer = OptChoice.adamw)
      ∧ (optimizer = "sgd" → r.optimizer = OptChoice.sgd)
      ∧ (optimizer = "adamw4bit" → r.optimizer = OptChoice.adamw4bit))
  ∧ configure_optimizers "adamw4bit" "none" =
      Except.ok ⟨OptChoice.adamw4bit, SchedChoice.lambdaConst 1, "step"⟩
  ∧ pyIn "adamw4bit" OPT_ERR_SUFFIX = false
  ∧ pyIn "adam" OPT_ERR_SUFFIX = true
  ∧ pyIn "adamw" OPT_ERR_SUFFIX = true
  ∧ pyIn "sgd" OPT_ERR_SUFFIX = true := by
  refine ⟨?_, ?_, by rfl, by decide, by decide, by decide, by decide⟩
  · unfold configure_optimizers selectOptimizer selectScheduler
    split_ifs <;> simp_all
  · intro r h
    unfold configure_optimizers selectOptimizer selectScheduler at h
    split_ifs at h <;> simp_all <;> subst h <;> exact ⟨rfl, rfl, rfl⟩

/-- Witness for C6: a rejected optimizer name, and the accepted adamw4bit. -/
theorem claim_C6_witness :
    (∃ e, configure_optimizers "lamb" "cosine" =
      Except.error (PyError.valueError e))
  ∧ (OptimizersResult.mk OptChoice.adamw4bit (SchedChoice.lambdaConst 1)
      "step").interval = "step" :=
  ⟨(claim_C6 "lamb" "cosine").1.mpr (Or.inl (by decide)),
   ((claim_C6 "adamw4bit" "none").2.1
      ⟨OptChoice.adamw4bit, SchedChoice.lambdaConst 1, "step"⟩ (by rfl)).1⟩

/-- C3: `shared_step` routes the batch through the Mixup/Cutmix augmentation
exactly in "train" mode; in every other mode (so for every "val" and "test"
batch) the inputs reach the network unchanged and the integer targets are
one-hot encoded over n_classes before the loss; `oneHot` really is the
one-hot float vector of its class. -/
theorem claim_C3 (env : NetEnv) (s : StepState) (x : List Int) (y : List Nat)
    (mode : String) :
    (mode = "train" →
      ((shared_step env s x y mode).used_x, (shared_step env s x y mode).used_y) =
        env.mixupFn x y)
  ∧ (mode ≠ "train" →
      (shared_step env s x y mode).used_x = x ∧
      (shared_step env s x y mode).used_y = y.map (oneHot env.n_classes))
  ∧ (∀ n c, (oneHot n c).length = n)
  ∧ (∀ n c i, i < n → (oneHot n c).getD i 0 = if i = c then 1 else 0) := by
  refine ⟨?_, ?_, ?_, ?_⟩
  · intro h
    subst h
    simp [shared_step]
  · intro h
    simp [shared_step, h]
  · intro n c
    simp [oneHot]
  · intro n c i hi
    simp [oneHot, List.getD_eq_getElem?_getD, List.getElem?_map,
      List.getElem?_range hi]

/-- Witness for C3: a validation batch passes through un-mixed and one-hot. -/
theorem claim_C3_witness :
    (shared_step demoEnv initStepState [5] [1] "val").used_x = [5] ∧
    (shared_step demoEnv initStepState [5] [1] "val").used_y =
      [1].map (oneHot demoEnv.n_classes) :=
  (claim_C3 demoEnv initStepState [5] [1] "val").2.1 (by decide)

/-- C8: `shared_step` bumps train_step by one exactly in "train" mode and
val_step by one exactly in "val" mode, a test-mode call leaves both counters
unchanged, and the constructor starts both at zero. -/
theorem claim_C8 (env : NetEnv) (s : StepState) (x : List Int) (y : List Nat)
    (mode : String) :
    ((shared_step env s x y mode).state.train_step =
      s.train_step + (if mode = "train" then 1 else 0))
  ∧ ((shared_step env s x y mode).state.val_step =
      s.val_step + (if mode = "val" then 1 else 0))
  ∧ ((test_step env s x y).state.train_step = s.train_step ∧
     (test_step env s x y).state.val_step = s.val_step)
  ∧ (initStepState.train_step = 0 ∧ initStepState.val_step = 0) := by
  refine ⟨by simp [shared_step], by simp [shared_step], ?_, by simp [initStepState]⟩
  constructor <;> simp [test_step, shared_step]

/-- Helper: after a run of `shared_step` calls the train counter grew by the
number of train-mode steps. -/
theorem stateAfter_train_step (env : NetEnv) (l : List Step) :
    ∀ s : StepState, (stateAfter env s l).train_step =
      s.train_step + l.countP (fun b => decide (b.mode = "train")) := by
  induction l with
  | nil =>
    intro s
    simp [stateAfter]
  | cons b rest ih =>
    intro s
    simp only [stateAfter, List.foldl_cons] at ih ⊢
    rw [ih, List.countP_cons]
    simp only [shared_step]
    by_cases h : b.mode = "train" <;> simp [h] <;> omega

/-- C5: with gact open, the controller's iterate replay happens on a step
executed after the run `past` exactly when the step is a training step and
`past` already contains a training step: never on the first training step,
never in val or test mode, on every later training step.  Whenever gact is
open, the first-8-sample slice of the step's batch is stored afterwards. -/
theorem claim_C5 (env : NetEnv) (past : List Step) (b : Step) :
    ((shared_step env (stateAfter env initStepState past) b.x b.y
        b.mode).iterate_invoked = true ↔
      (env.open_gact = true ∧ b.mode = "train" ∧ ∃ p ∈ past, p.mode = "train"))
  ∧ (env.open_gact = true →
      (shared_step env (stateAfter env initStepState past) b.x b.y
          b.mode).state.partial_x =
        some ((shared_step env (stateAfter env initStepState past) b.x b.y
          b.mode).used_x.take 8)) := by
  have hc : (stateAfter env initStepState past).train_step =
      past.countP (fun p => decide (p.mode = "train")) := by
    rw [stateAfter_train_step]
    simp [initStepState]
  constructor
  · by_cases hm : b.mode = "train"
    · have hiter : ((shared_step env (stateAfter env initStepState past) b.x
          b.y b.mode).iterate_invoked = true) ↔
          (env.open_gact = true ∧
            (stateAfter env initStepState past).train_step + 1 ≠ 1) := by
        simp [shared_step, hm]
      rw [hiter, hc]
      constructor
      · rintro ⟨hog, hne⟩
        refine ⟨hog, hm, ?_⟩
        by_contra hnone
        push_neg at hnone
        have hzero : past.countP (fun p => decide (p.mode = "train")) = 0 :=
          List.countP_eq_zero.mpr (fun a ha => by simpa using hnone a ha)
        omega
      · rintro ⟨hog, -, p, hp, hpt⟩
        refine ⟨hog, ?_⟩
        have hpos : past.countP (fun q => decide (q.mode = "train")) ≠ 0 := by
          intro h0
          have := List.countP_eq_zero.mp h0 p hp
          simp [hpt] at this
        omega
    · simp [shared_step, hm]
  · intro hog
    simp [shared_step, hog]

/-- Witness for C5: with one earlier training step in the run, the replay
fires on the next training step. -/
theorem claim_C5_witness :
    (shared_step demoEnv
        (stateAfter demoEnv initStepState
          [⟨"train", [1], [0]⟩, ⟨"val", [2], [1]⟩])
        [3] [0] "train").iterate_invoked = true :=
  (claim_C5 demoEnv [⟨"train", [1], [0]⟩, ⟨"val", [2], [1]⟩]
      ⟨"train", [3], [0]⟩).1.mpr
    ⟨rfl, rfl, ⟨"train", [1], [0]⟩, by simp, rfl⟩

/-- The all-zero stat row, the `getD` default of the C10 statement. -/
def zeroRow : StatRow := ⟨0, 0, 0, 0, 0⟩

/-- Helper: pointwise reading of the element-wise sum of two stat tensors. -/
theorem addStats_getD (a : List StatRow) :
    ∀ (b : List StatRow) (i : Nat) (d : StatRow), i < a.length → i < b.length →
      (addStats a b).getD i d = addRow (a.getD i d) (b.getD i d) := by
  induction a with
  | nil =>
    intro b i d ha _
    simp at ha
  | cons x xs ih =>
    intro b i d ha hb
    cases b with
    | nil => simp at hb
    | cons y ys =>
      cases i with
      | zero => simp [addStats]
      | succ n =>
        simp only [addStats, List.zipWith_cons_cons, List.getD_cons_succ]
        exact ih ys n d (by simpa using ha) (by simpa using hb)

/-- Helper: the element-wise sum keeps the common tensor shape. -/
theorem foldl_addStats_length (rest : List (List StatRow)) (n : Nat) :
    ∀ a : List StatRow, a.length = n → (∀ l ∈ rest, l.length = n) →
      (rest.foldl addStats a).length = n := by
  induction rest with
  | nil =>
    intro a ha _
    simpa using ha
  | cons l ls ih =>
    intro a ha hall
    simp only [List.foldl_cons]
    refine ih (addStats a l) ?_ (fun m hm => hall m (by simp [hm]))
    simp [addStats, ha, hall l (by simp)]

/-- Helper: pointwise reading of the whole element-wise aggregation. -/
theorem foldl_addStats_getD (rest : List (List StatRow)) (n i : Nat)
    (d : StatRow) (hi : i < n) :
    ∀ a : List StatRow, a.length = n → (∀ l ∈ rest, l.length = n) →
      (rest.foldl addStats a).getD i d =
        rest.foldl (fun r l => addRow r (l.getD i d)) (a.getD i d) := by
  induction rest with
  | nil =>
    intro a _ _
    simp
  | cons l ls ih =>
    intro a ha hall
    simp only [List.foldl_cons]
    rw [ih (addStats a l)
        (by simp [addStats, ha, hall l (by simp)])
        (fun m hm => hall m (by simp [hm])),
      addStats_getD a l i d (by rw [ha]; exact hi)
        (by rw [hall l (by simp)]; exact hi)]

/-- Helper: folding `addRow` sums every field. -/
theorem foldl_addRow (rows : List StatRow) :
    ∀ a : StatRow, rows.foldl addRow a =
      ⟨a.tp + (rows.map StatRow.tp).sum, a.fp + (rows.map StatRow.fp).sum,
       a.tn + (rows.map StatRow.tn).sum, a.fn + (rows.map StatRow.fn).sum,
       a.sup + (rows.map StatRow.sup).sum⟩ := by
  induction rows with
  | nil =>
    intro a
    simp
  | cons r rs ih =>
    intro a
    simp only [List.foldl_cons, ih, List.map_cons, List.sum_cons, addRow]
    congr 1 <;> omega

/-- C10: `on_test_epoch_end` element-wise sums the accumulated per-batch stat
tensors and writes, per class in class order, the row (summed true positives
divided by summed support, summed support) to per-class-acc-test.csv. -/
theorem claim_C10 (outputs : List (List StatRow)) (n : Nat)
    (hne : outputs ≠ []) (hlen : ∀ l ∈ outputs, l.length = n) :
    (on_test_epoch_end outputs).path = "per-class-acc-test.csv"
  ∧ (on_test_epoch_end outputs).rows.length = n
  ∧ (∀ i, i < n →
      (on_test_epoch_end outputs).rows.getD i (0, 0) =
        (((outputs.map (fun l => (l.getD i zeroRow).tp)).sum : ℚ) /
          ((outputs.map (fun l => (l.getD i zeroRow).sup)).sum : ℚ),
         (outputs.map (fun l => (l.getD i zeroRow).sup)).sum)) := by
  cases outputs with
  | nil => exact absurd rfl hne
  | cons o rest =>
    have ho : o.length = n := hlen o (by simp)
    have hrest : ∀ l ∈ rest, l.length = n := fun l hl => hlen l (by simp [hl])
    have hclen : (combineStats (o :: rest)).length = n := by
      simpa [combineStats] using foldl_addStats_length rest n o ho hrest
    refine ⟨rfl, by simp [on_test_epoch_end, hclen], ?_⟩
    intro i hi
    have hgetD : (combineStats (o :: rest)).getD i zeroRow =
        ⟨(o.getD i zeroRow).tp +
            ((rest.map (fun l => l.getD i zeroRow)).map StatRow.tp).sum,
          (o.getD i zeroRow).fp +
            ((rest.map (fun l => l.getD i zeroRow)).map StatRow.fp).sum,
          (o.getD i zeroRow).tn +
            ((rest.map (fun l => l.getD i zeroRow)).map StatRow.tn).sum,
          (o.getD i zeroRow).fn +
            ((rest.map (fun l => l.getD i zeroRow)).map StatRow.fn).sum,
          (o.getD i zeroRow).sup +
            ((rest.map (fun l => l.getD i zeroRow)).map StatRow.sup).sum⟩ := by
      simp only [combineStats]
      rw [foldl_addStats_getD rest n i zeroRow hi o ho hrest, ← List.foldl_map,
        foldl_addRow]
    have hrow : (on_test_epoch_end (o :: rest)).rows.getD i (0, 0) =
        (fun r : StatRow => ((r.tp : ℚ) / (r.sup : ℚ), r.sup))
          ((combineStats (o :: rest)).getD i zeroRow) := by
      simp only [on_test_epoch_end]
      rw [List.getD_eq_getElem?_getD, List.getElem?_map,
        List.getElem?_eq_getElem (by rw [hclen]; exact hi),
        List.getD_eq_getElem?_getD,
        List.getElem?_eq_getElem (by rw [hclen]; exact hi)]
      rfl
    rw [hrow, hgetD]
    simp [List.map_map, Function.comp_def]

/-- Witness for C10 on two concrete accumulated batches. -/
theorem claim_C10_witness :
    (on_test_epoch_end demoStats).rows.getD 0 (0, 0) =
      (((demoStats.map (fun l => (l.getD 0 zeroRow).tp)).sum : ℚ) /
        ((demoStats.map (fun l => (l.getD 0 zeroRow).sup)).sum : ℚ),
       (demoStats.map (fun l => (l.getD 0 zeroRow).sup)).sum) :=
  (claim_C10 demoStats 2 (by decide) (by decide)).2.2 0 (by decide)

end VitFinetune
